import Mathlib

/-!
Verification of the ghostplay progression core (src/ghostplay/ghostplay.go).

Modelling conventions:
* Go `uint64` / `uint32` values are `Nat` values; every machine operation of the
  source is written with an explicit `% U64` / `% U32` where the source operates
  on a machine word.  `time.Time` is an abstract `Nat`, `uuid.UUID` an abstract
  `Nat`, and the generic `ExtraData` payload a type parameter `T`.
* The SQL layer is modelled as an in-memory table, a list of rows of the player
  table created by `initPlayerStateTable`.  A `SELECT ... WHERE col = $1` with a
  concrete argument list is modelled as a lookup keyed by the value that the
  source binds to `$1` positionally; row decoding (`rows.Scan`) is abstracted as
  delivering the named columns of the row.  Failure of `json.Marshal` and of
  `db.Exec` cannot be derived from the table contents, so they enter the model
  as boolean oracles (`marshalOk`, `execOk`) passed to `Save`.
* `Save` in the source never mutates its receiver `p` (all updates are made on
  the locally fetched `player`), so the model returns the receiver unchanged
  next to the outcome; the outcome records the error returned to the caller and
  the `(level, xp)` pair handed to the `UPDATE` statement when one is issued.
* A Go runtime panic (`%` by zero at `player.XP % xpThreshold`) is a distinct
  outcome `panicked`, separate from a returned error.
-/

namespace Ghostplay

/-- Size of the Go `uint64` range: `uint64` arithmetic wraps modulo this. -/
def U64 : Nat := 2 ^ 64

/-- Size of the Go `uint32` range: `uint32` arithmetic wraps modulo this. -/
def U32 : Nat := 2 ^ 32

/-- The Go struct `PlayerState[T]` of ghostplay.go, field for field.  `Flags`
is a nilable Go map, hence an `Option`; `none` is the nil map. -/
structure PlayerState (T : Type) where
  ExtraData : T
  XP : Nat
  Level : Nat
  LastUpdated : Nat
  ID : Nat
  UserName : String
  Phrase : String
  Flags : Option (List (String × Bool))
deriving DecidableEq

/-- The player table: the rows the backend holds. -/
abbrev DB (T : Type) := List (PlayerState T)

/-- Errors the source returns (it has no sentinel values; these tag the two
`fmt.Errorf` sites of the modelled operations). -/
inductive GpError where
  | queryFailed
  | marshalFailed
deriving DecidableEq

/-- Observable outcome of `Save`: `ok written` is a nil error, with `written`
the `(level, xp)` pair bound into the `UPDATE` statement when the update branch
issued one (`none` when no write was issued); `fail e` is a returned non-nil
error; `panicked` is a Go runtime panic. -/
inductive SaveOutcome where
  | ok (written : Option (Nat × Nat))
  | fail (e : GpError)
  | panicked
deriving DecidableEq

/-- Embeds `GetUserStateByID` (ghostplay.go lines 58-84): the query
`SELECT * FROM tbl WHERE id = $1` with `$1` bound to `id`; `sql.ErrNoRows`
is mapped by the source to a `(nil, nil)` return, here `none`. -/
def GetUserStateByID {T : Type} (db : DB T) (id : Nat) : Option (PlayerState T) :=
  db.find? (fun r => r.ID == id)

/-- Embeds `GetUserStateByPhrase` (ghostplay.go lines 88-114): the query
`SELECT * FROM tbl WHERE phrase = $1` is executed as
`db.QueryRow(query, dbTableName, phrase)`, so the value bound to `$1` is
`dbTableName`; the `phrase` argument is a spare trailing parameter that the
statement never consumes.  The lookup is therefore keyed by the table name. -/
def GetUserStateByPhrase {T : Type} (db : DB T) (dbTableName phrase : String) :
    Option (PlayerState T) :=
  db.find? (fun r => r.Phrase == dbTableName)

/-- Embeds `PlayerState.Save` (ghostplay.go lines 119-163).
Branches, in source order:
* fetch by `p.ID`; an absent row (lines 125-132) only logs and returns nil —
  the creation code is commented out, so nothing is written and the receiver
  is untouched;
* lines 134-139: `player.XP += xpIncrease` (uint64 wrap), then
  `xpThreshold := uint64(player.Level)*200 + player.XP` (the already-updated
  XP), then `if player.XP % xpThreshold == 0 { player.Level++ }` — a `%` by
  zero panics, and the uint32 increment wraps;
* `json.Marshal(p.ExtraData)` failure returns a non-nil error (`marshalOk`
  oracle);
* the `UPDATE` is issued with the computed level and XP among its arguments;
  its result is assigned (`_, err = db.Exec(...)`) but `Save` then returns
  `nil` unconditionally, so `execOk` does not influence the outcome. -/
def Save {T : Type} (p : PlayerState T) (db : DB T) (marshalOk execOk : Bool)
    (xpIncrease : Nat) : SaveOutcome × PlayerState T :=
  match GetUserStateByID db p.ID with
  | none => (SaveOutcome.ok none, p)
  | some player =>
    let newXP := (player.XP + xpIncrease) % U64
    let xpThreshold := (player.Level * 200 + newXP) % U64
    if xpThreshold = 0 then
      (SaveOutcome.panicked, p)
    else
      let newLevel :=
        if newXP % xpThreshold = 0 then (player.Level + 1) % U32 else player.Level
      if marshalOk then
        (SaveOutcome.ok (some (newLevel, newXP)), p)
      else
        (SaveOutcome.fail GpError.marshalFailed, p)

/-- The Go struct `Leader` (ghostplay.go lines 165-169). -/
structure Leader where
  UserName : String
  Level : Nat
  XP : Nat
deriving DecidableEq

/-- The ordering `ORDER BY xp DESC` sorts the table rows by. -/
def xpDesc {T : Type} (a b : PlayerState T) : Prop := b.XP ≤ a.XP

instance {T : Type} : DecidableRel (@xpDesc T) :=
  fun a b => Nat.decLe b.XP a.XP

instance {T : Type} : IsTotal (PlayerState T) xpDesc :=
  ⟨fun a b => Nat.le_total b.XP a.XP⟩

instance {T : Type} : IsTrans (PlayerState T) xpDesc :=
  ⟨fun _ _ _ h1 h2 => Nat.le_trans h2 h1⟩

/-- Embeds `GetLeaderboard` (ghostplay.go lines 172-200): no validation of
`limit` is performed; the query `SELECT * FROM tbl ORDER BY xp DESC LIMIT $1`
is modelled as sorting the rows by descending XP and taking `limit` of them,
each row scanned into a `Leader`.  A negative `LIMIT` is rejected by the
backend, surfaced by the source as the error of `db.Query`. -/
def GetLeaderboard {T : Type} (db : DB T) (limit : Int) : Except GpError (List Leader) :=
  if limit < 0 then
    Except.error GpError.queryFailed
  else
    Except.ok (((List.insertionSort xpDesc db).take limit.toNat).map
      (fun r => ⟨r.UserName, r.Level, r.XP⟩))

/-- Player of the spec scenario: Level 3, XP 550, about to receive delta 80. -/
def pSpec : PlayerState Unit := ⟨(), 550, 3, 0, 1, "Ghost", "rune-7", some []⟩

/-- Fresh player state whose ID is unknown to storage. -/
def pNew : PlayerState Unit := ⟨(), 0, 0, 0, 7, "Ghost", "rune-7", none⟩

/-- Stored player at Level 1 with XP 0. -/
def pZero : PlayerState Unit := ⟨(), 0, 1, 0, 2, "Casper", "boo", some []⟩

/-- Stored player with empty UserName and empty Phrase. -/
def pBlank : PlayerState Unit := ⟨(), 10, 1, 0, 3, "", "", some []⟩

/-- Stored player used for the failed-write run. -/
def pUpd : PlayerState Unit := ⟨(), 10, 1, 0, 4, "Ghost", "word", some []⟩

/-- Stored player whose recovery phrase is "rune-9". -/
def pRune : PlayerState Unit := ⟨(), 100, 1, 0, 5, "Ghost", "rune-9", some []⟩

/-- Stored player at the top of the uint32 level range with XP 0. -/
def pMax : PlayerState Unit := ⟨(), 0, 4294967295, 0, 6, "Ghost", "max", some []⟩

/-- Leaderboard sample table and its expected projection. -/
def dbBoard : DB Unit :=
  [⟨(), 10, 1, 0, 8, "a", "pa", some []⟩, ⟨(), 30, 2, 0, 9, "b", "pb", some []⟩]

/-- Leaders dbBoard projects to, sorted by descending XP. -/
def lsBoard : List Leader := [⟨"b", 2, 30⟩, ⟨"a", 1, 10⟩]

end Ghostplay

namespace Ghostplay

/-- C1: the spec scenario Level=3, XP=550, delta 80 (550+80 = 630 ≥ 3*200).
The code computes `xpThreshold = 3*200 + 630 = 1230` and increments the level
only when `630 % 1230 == 0`, which fails, so the written pair is level 3 and
XP 630 — the level does not increase to 4 as the claim requires. -/
theorem save_ignores_threshold_at_spec_scenario :
    (Save pSpec [pSpec] true true 80).1 = SaveOutcome.ok (some (3, 630)) := by
  decide

/-- C2: for an ID absent from storage, `Save` only logs and returns nil: no
identifier is assigned, no record is written, and the receiver (Level 0, XP 0,
nil Flags) is returned untouched — no creation happens. -/
theorem save_creates_nothing_for_unknown_id :
    Save pNew [] true true 50 = (SaveOutcome.ok none, pNew) := by
  decide

/-- C3: stored Level 1, XP 0, delta 0: 0+0 = 0 < 200, yet the code computes
`0 % (1*200 + 0) == 0` and increments the level, writing level 2 — the level
is not left unchanged below the threshold. -/
theorem save_levels_up_below_threshold_at_zero_xp :
    (Save pZero [pZero] true true 0).1 = SaveOutcome.ok (some (2, 0)) := by
  decide

/-- C4: a state whose UserName and Phrase are both empty is accepted: `Save`
performs no validation, issues the update write and returns a nil error, so no
InvalidData failure occurs before the storage write. -/
theorem save_accepts_empty_username_and_phrase :
    (Save pBlank [pBlank] true true 5).1 = SaveOutcome.ok (some (1, 15)) := by
  decide

/-- C5: with the database write failing (`execOk = false`), `Save` still
returns a nil error carrying the attempted write: the source assigns the
`db.Exec` error to `err` and then returns `nil` unconditionally, discarding
the failure. -/
theorem save_reports_success_when_exec_fails :
    (Save pUpd [pUpd] true false 5).1 = SaveOutcome.ok (some (1, 15)) := by
  decide

/-- C6 counterexample: stored Level 4294967295 (= 2^32 − 1), XP 0, delta 0.
The XP addition 0+0 does not overflow, yet the zero new XP satisfies
`0 % xpThreshold == 0`, the uint32 increment wraps, and the written level is 0,
strictly below the stored level — the claim as stated is false. -/
theorem save_level_decrease_at_uint32_max :
    GetUserStateByID [pMax] pMax.ID = some pMax ∧
    pMax.XP + 0 < U64 ∧
    (Save pMax [pMax] true true 0).1 = SaveOutcome.ok (some (0, 0)) ∧
    ¬ pMax.Level ≤ 0 := by
  decide

/-- C6 amended: for a stored player, if the XP addition does not overflow the
uint64 range and the stored level is below 2^32 − 1 (so the uint32 increment
cannot wrap), then whenever `Save` issues a write, the written XP and level are
at least the stored XP and level. -/
theorem save_written_values_monotone {T : Type} (p player : PlayerState T)
    (db : DB T) (mOk eOk : Bool) (d lvl xp : Nat)
    (hfind : GetUserStateByID db p.ID = some player)
    (hxp : player.XP + d < U64)
    (hlvl : player.Level + 1 < U32)
    (hw : (Save p db mOk eOk d).1 = SaveOutcome.ok (some (lvl, xp))) :
    player.Level ≤ lvl ∧ player.XP ≤ xp := by
  simp only [Save, hfind] at hw
  rw [Nat.mod_eq_of_lt hxp] at hw
  split at hw
  · exact absurd hw (by simp)
  · split at hw
    · rw [SaveOutcome.ok.injEq, Option.some.injEq, Prod.mk.injEq] at hw
      obtain ⟨hw1, hw2⟩ := hw
      subst hw1; subst hw2
      refine ⟨?_, Nat.le_add_right _ _⟩
      split
      · rw [Nat.mod_eq_of_lt hlvl]; exact Nat.le_succ _
      · exact Nat.le_refl _
    · exact absurd hw (by simp)

/-- C6 amended, witness: the Level-3, XP-550 player receiving delta 80 gets
level 3 and XP 630 written, both at least the stored values. -/
theorem save_written_values_monotone_witness :
    pSpec.Level ≤ 3 ∧ pSpec.XP ≤ 630 :=
  save_written_values_monotone pSpec pSpec [pSpec] true true 80 3 630
    (by decide) (by decide) (by decide) (by decide)

/-- C7: a player whose recovery phrase is "rune-9" is stored, yet looking it up
by phrase "rune-9" with table name "players" finds nothing, while passing the
phrase in the table-name position finds it: the lookup is keyed by the
`dbTableName` argument, not by the supplied phrase. -/
theorem getUserStateByPhrase_misses_existing_phrase :
    GetUserStateByPhrase [pRune] "players" "rune-9" = none ∧
    GetUserStateByPhrase [pRune] "rune-9" "anything" = some pRune := by
  decide

/-- C8: called with limit 0 on a nonempty table, `GetLeaderboard` performs the
query and returns success with an empty list — no InvalidData failure occurs
for a non-positive limit. -/
theorem getLeaderboard_zero_limit_succeeds :
    GetLeaderboard [pRune] 0 = Except.ok [] := by
  rfl

/-- C9: for a positive limit `n`, a successful `GetLeaderboard` returns at most
`n` entries, pairwise sorted by descending XP. -/
theorem getLeaderboard_length_le_and_sorted {T : Type} (db : DB T) (n : Int)
    (ls : List Leader) (hn : 0 < n) (h : GetLeaderboard db n = Except.ok ls) :
    (ls.length : Int) ≤ n ∧ ls.Pairwise (fun a b => b.XP ≤ a.XP) := by
  rw [GetLeaderboard, if_neg (by omega)] at h
  rw [Except.ok.injEq] at h
  subst h
  constructor
  · rw [List.length_map, List.length_take]
    have h1 : min n.toNat (List.insertionSort xpDesc db).length ≤ n.toNat :=
      Nat.min_le_left _ _
    omega
  · rw [List.pairwise_map]
    refine List.Pairwise.imp (fun h => h) ?_
    exact ((List.sorted_insertionSort xpDesc db).sublist (List.take_sublist _ _))

/-- C9 witness: on a two-row table with limit 5, the leaderboard is the two
projected leaders in descending XP order, of length at most 5. -/
theorem getLeaderboard_length_le_and_sorted_witness :
    GetLeaderboard dbBoard 5 = Except.ok lsBoard ∧
    ((lsBoard.length : Int) ≤ 5 ∧ lsBoard.Pairwise (fun a b => b.XP ≤ a.XP)) :=
  ⟨by rfl, getLeaderboard_length_le_and_sorted dbBoard 5 lsBoard (by decide) (by rfl)⟩

/-- C10: when the receiver's ID is not found in storage, `Save` returns a nil
error, issues no write, and hands back the receiver state unchanged — the
outcome is indistinguishable from a successful save. -/
theorem save_unknown_id_returns_nil_and_unchanged {T : Type} (p : PlayerState T)
    (db : DB T) (mOk eOk : Bool) (d : Nat)
    (h : GetUserStateByID db p.ID = none) :
    Save p db mOk eOk d = (SaveOutcome.ok none, p) := by
  simp only [Save, h]

/-- C10 witness: the fresh player against an empty table. -/
theorem save_unknown_id_returns_nil_and_unchanged_witness :
    GetUserStateByID ([] : DB Unit) pNew.ID = none ∧
    Save pNew ([] : DB Unit) true true 5 = (SaveOutcome.ok none, pNew) :=
  ⟨rfl, save_unknown_id_returns_nil_and_unchanged pNew [] true true 5 rfl⟩

end Ghostplay
